import Mathlib

/-!
Shallow embedding of generate_plots.py, a one-shot CSV jitter/delay
analysis and plotting script, together with proofs about its behaviour.

Modelling conventions:
  - a CSV row keeps the three columns the script reads (Time, Source,
    Destination); Time values are modelled as exact integers, since every
    property below is about which elements are subtracted or kept, never
    about rounding;
  - the filesystem and the plotting library are modelled by an explicit
    list of effects emitted in program order; an exception is an
    `Except.error` carrying the message, and in the script every raise
    happens before the raising function emits any effect;
  - a directory is a listing: a list of (filename, parsed contents).
-/

namespace JitterAnalyzer

/-- One row of a loaded CSV dump: the Time, Source and Destination columns. -/
structure Row where
  time : Int
  source : String
  destination : String
  deriving DecidableEq

/-- A Trace is one CSV file in memory: an ordered list of rows (a dataframe). -/
abbrev Trace := List Row

/-- A directory listing: each entry is a filename paired with the parsed file. -/
abbrev DirListing := List (String × Trace)

/-- Python membership test used by load_data: the filename contains ".csv". -/
def hasCsvMarker (name : String) : Bool :=
  decide (List.IsInfix ".csv".data name.data)

/-- Python name.split(".")[0]: the part of the filename before the first dot. -/
def nameStem (name : String) : String :=
  String.mk (name.data.takeWhile (fun c => c != '.'))

/-- Embeds load_data: keep the entries whose filename contains the csv marker,
return their parsed contents together with the derived names. -/
def load_data (dirListing : DirListing) : List Trace × List String :=
  let entries := dirListing.filter (fun e => hasCsvMarker e.1)
  (entries.map Prod.snd, entries.map (fun e => nameStem e.1))

/-- Row mask of the from_arm direction in filter_data:
Destination == 192.168.38.11 and Source == 192.168.38.1. -/
def fromArmPred (r : Row) : Bool :=
  r.destination == "192.168.38.11" && r.source == "192.168.38.1"

/-- Row mask of the to_arm direction in filter_data:
Destination == 192.168.38.1 and Source == 192.168.38.11. -/
def toArmPred (r : Row) : Bool :=
  r.destination == "192.168.38.1" && r.source == "192.168.38.11"

/-- One iteration of the filter_data loop: the (from_arm, to_arm) pair of one frame. -/
def filter_frame (frame : Trace) : Trace × Trace :=
  (frame.filter fromArmPred, frame.filter toArmPred)

/-- Embeds filter_data: the directional pair of every dataframe, in order. -/
def filter_data (dataframes : List Trace) : List (Trace × Trace) :=
  dataframes.map filter_frame

/-- np.roll(array, 1): rotate right by one, the last element moves to index 0. -/
def roll1 (a : List Int) : List Int :=
  match a.getLast? with
  | none => []
  | some x => x :: a.dropLast

/-- array - np.roll(array, 1), the raw first-difference series of make_plot. -/
def raw_jitter (a : List Int) : List Int :=
  List.zipWith (fun x y => x - y) a (roll1 a)

/-- jitter[1:], the jitter samples make_plot actually plots
(the wrapped index-0 difference is dropped). -/
def plotted_jitter (a : List Int) : List Int :=
  (raw_jitter a).drop 1

/-- The array truncation of make_plot: the longer of the two Time arrays is
cut to the length of the shorter, keeping the leading prefix. -/
def truncate (status_array command_array : List Int) : List Int × List Int :=
  if command_array.length > status_array.length then
    (status_array, command_array.take status_array.length)
  else
    (status_array.take command_array.length, command_array)

/-- command_array - status_array after truncation: the command delay series. -/
def command_delay_series (status_array command_array : List Int) : List Int :=
  List.zipWith (fun x y => x - y)
    (truncate status_array command_array).2 (truncate status_array command_array).1

/-- An observable effect of the script: figure titling, drawing a series,
ensuring a directory exists, writing a PNG, or opening the display. -/
inductive Effect where
  | figTitle (title : String)
  | plotSeries (xs ys : List Int)
  | ensureDir (path : String)
  | writePng (path : String)
  | showFig
  deriving DecidableEq

/-- os.path.join for the paths this script builds. -/
def joinPath (a b : String) : String := a ++ "/" ++ b

/-- The full path of the PNG that make_plot writes for a given title:
inside the figures directory under the current working directory. -/
def pngPath (cwd title : String) : String :=
  joinPath (joinPath cwd "figures") (title ++ ".png")

/-- The effects make_plot emits once past its precondition check, in program
order: set the suptitle, draw the two jitter plots and the delay plot,
then (if saving) ensure CWD/figures exists and write CWD/figures/title.png
(the figures_dir argument is never consulted here, mirroring the source),
then (if showing) open the display. -/
def make_plot_effects (status_frame command_frame : Trace) (title : String)
    (save sh : Bool) (cwd : String) : List Effect :=
  let p := truncate (status_frame.map Row.time) (command_frame.map Row.time)
  let status_array := p.1
  let command_array := p.2
  let status_jitter := raw_jitter status_array
  let command_jitter := raw_jitter command_array
  let command_delay := List.zipWith (fun x y => x - y) command_array status_array
  [Effect.figTitle title,
   Effect.plotSeries (status_array.drop 1) ((status_jitter.drop 1).map (fun v => 1000 * v)),
   Effect.plotSeries (command_array.drop 1) ((command_jitter.drop 1).map (fun v => 1000 * v)),
   Effect.plotSeries command_array (command_delay.map (fun v => 1000 * v))]
  ++ (if save then
        [Effect.ensureDir (joinPath cwd "figures"),
         Effect.writePng (pngPath cwd title)]
      else [])
  ++ (if sh then [Effect.showFig] else [])

/-- Embeds make_plot: raises ValueError when save is requested without a
figures_dir, before any effect; otherwise emits the plotting effects. -/
def make_plot (status_frame command_frame : Trace) (title : String)
    (save sh : Bool) (figures_dir : Option String) (cwd : String) :
    Except String (List Effect) :=
  if save && figures_dir.isNone then
    Except.error "figures_dir must be specified if save == True"
  else
    Except.ok (make_plot_effects status_frame command_frame title save sh cwd)

/-- The per-file loop of main: call make_plot on every (directional pair, name)
item, concatenating the effects; any exception aborts the run. -/
def run_plots (items : List ((Trace × Trace) × String)) (save sh : Bool)
    (figures_dir : Option String) (cwd : String) : Except String (List Effect) :=
  match items with
  | [] => Except.ok []
  | it :: rest =>
    match make_plot it.1.1 it.1.2 it.2 save sh figures_dir cwd with
    | Except.error e => Except.error e
    | Except.ok effs =>
      match run_plots rest save sh figures_dir cwd with
      | Except.error e => Except.error e
      | Except.ok more => Except.ok (effs ++ more)

/-- Embeds main: load the directory, raise RuntimeError when no csv file was
found, otherwise filter every dataframe and plot each with its name as title. -/
def main_run (data_dir : String) (dirListing : DirListing) (figures_dir : String)
    (save sh : Bool) (cwd : String) : Except String (List Effect) :=
  let r := load_data dirListing
  if r.1.length = 0 then
    Except.error ("No .csv files were found in " ++ data_dir)
  else
    run_plots ((filter_data r.1).zip r.2) save sh (some figures_dir) cwd

/-- The parsed command line: optional directories and the two flags. -/
structure Args where
  data_dir : Option String
  figure_dir : Option String
  hide : Bool
  save : Bool

/-- Embeds the __main__ block: resolve the directory defaults against the
current working directory, reject hide-without-save with a ValueError before
anything runs, then call main with show = not hide. -/
def entry_point (args : Args) (cwd : String) (dirListing : DirListing) :
    Except String (List Effect) :=
  let data_dir := args.data_dir.getD (joinPath cwd "data")
  let figure_dir := args.figure_dir.getD (joinPath cwd "figures")
  if args.hide && !args.save then
    Except.error "You do not want to show the plots and you do not want to save them, so why make them?"
  else
    main_run data_dir dirListing figure_dir args.save (!args.hide) cwd

/-- The PNG paths written among a list of effects, in order. -/
def writtenPngs (effs : List Effect) : List String :=
  effs.filterMap (fun e => match e with | Effect.writePng p => some p | _ => none)

/-- The figure titles set among a list of effects, in order. -/
def figTitles (effs : List Effect) : List String :=
  effs.filterMap (fun e => match e with | Effect.figTitle t => some t | _ => none)

/-- The PNG paths a whole run wrote: every raise in the script happens before
the raising function emits any effect, so a run that ends in an error on this
model performed no writes. -/
def runWrites (r : Except String (List Effect)) : List String :=
  match r with
  | Except.ok effs => writtenPngs effs
  | Except.error _ => []

/-! ### Helper lemmas -/

/-- The truncation keeps the leading prefix of length min of both arrays. -/
theorem truncate_eq_take (s c : List Int) :
    truncate s c = (s.take (min s.length c.length), c.take (min s.length c.length)) := by
  rw [truncate]
  split
  · rename_i h
    have hm : min s.length c.length = s.length := Nat.min_eq_left (Nat.le_of_lt h)
    rw [hm, List.take_length]
  · rename_i h
    have hm : min s.length c.length = c.length := Nat.min_eq_right (Nat.le_of_not_lt h)
    rw [hm, List.take_length]

/-- The delay series has the common truncated length. -/
theorem command_delay_series_length (s c : List Int) :
    (command_delay_series s c).length = min s.length c.length := by
  rw [command_delay_series, truncate_eq_take]
  simp only [List.length_zipWith, List.length_take]
  omega

/-- Elementwise, the delay is command minus status at the same index. -/
theorem command_delay_series_getD (s c : List Int) (i : Nat)
    (h : i < min s.length c.length) :
    (command_delay_series s c).getD i 0 = c.getD i 0 - s.getD i 0 := by
  have hs : i < s.length := lt_of_lt_of_le h (Nat.min_le_left _ _)
  have hc : i < c.length := lt_of_lt_of_le h (Nat.min_le_right _ _)
  have hct : i < (c.take (min s.length c.length)).length := by
    simp only [List.length_take]; omega
  have hst : i < (s.take (min s.length c.length)).length := by
    simp only [List.length_take]; omega
  rw [command_delay_series, truncate_eq_take]
  simp only [List.getD_eq_getElem?_getD, List.getElem?_zipWith]
  rw [List.getElem?_eq_getElem hct, List.getElem?_eq_getElem hst,
    List.getElem?_eq_getElem hc, List.getElem?_eq_getElem hs]
  simp [List.getElem_take]

/-- Rotating by one preserves the length. -/
theorem roll1_length (a : List Int) : (roll1 a).length = a.length := by
  rw [roll1]
  cases h : a.getLast? with
  | none =>
    rw [List.getLast?_eq_none_iff] at h
    simp [h]
  | some x =>
    have hne : a ≠ [] := by
      intro hnil
      rw [hnil] at h
      simp at h
    have hpos : 0 < a.length := List.length_pos.mpr hne
    simp only [List.length_cons, List.length_dropLast]
    omega

/-- The raw difference series has the length of its source array. -/
theorem raw_jitter_length (a : List Int) : (raw_jitter a).length = a.length := by
  simp [raw_jitter, roll1_length]

/-- The plotted jitter drops one sample from the raw difference series. -/
theorem plotted_jitter_length (a : List Int) :
    (plotted_jitter a).length = a.length - 1 := by
  simp [plotted_jitter, raw_jitter_length]

/-- Away from index 0, the raw difference at i is a[i] - a[i-1]. -/
theorem raw_jitter_getD (a : List Int) (i : Nat) (h1 : 1 ≤ i) (h2 : i < a.length) :
    (raw_jitter a).getD i 0 = a.getD i 0 - a.getD (i - 1) 0 := by
  obtain ⟨j, rfl⟩ : ∃ j, i = j + 1 := ⟨i - 1, by omega⟩
  have hne : a ≠ [] := by
    intro hnil
    subst hnil
    simp at h2
  obtain ⟨x, hx⟩ : ∃ x, a.getLast? = some x := by
    cases hgl : a.getLast? with
    | none =>
      rw [List.getLast?_eq_none_iff] at hgl
      exact absurd hgl hne
    | some x => exact ⟨x, rfl⟩
  have hroll : roll1 a = x :: a.dropLast := by rw [roll1, hx]
  have hdl : j < a.dropLast.length := by
    simp only [List.length_dropLast]; omega
  have hdrop : a.dropLast[j]? = a[j]? := by
    rw [List.getElem?_eq_getElem hdl, List.getElem?_eq_getElem (by omega : j < a.length)]
    simp [List.getElem_dropLast]
  simp only [raw_jitter, hroll, List.getD_eq_getElem?_getD, List.getElem?_zipWith,
    List.getElem?_cons_succ, Nat.add_sub_cancel, hdrop]
  rw [List.getElem?_eq_getElem h2, List.getElem?_eq_getElem (by omega : j < a.length)]
  simp

/-- The raw difference at index 0 wraps around to the last element. -/
theorem raw_jitter_getD_zero (a : List Int) (x : Int) (h : a.getLast? = some x) :
    (raw_jitter a).getD 0 0 = a.getD 0 0 - x := by
  have hne : a ≠ [] := by
    intro hnil
    subst hnil
    simp at h
  obtain ⟨y, ys, rfl⟩ : ∃ y ys, a = y :: ys := by
    cases a with
    | nil => exact absurd rfl hne
    | cons y ys => exact ⟨y, ys, rfl⟩
  have hroll : roll1 (y :: ys) = x :: (y :: ys).dropLast := by rw [roll1, h]
  simp [raw_jitter, hroll]

/-- filter_data acts elementwise as filter_frame. -/
theorem filter_data_getD (dfs : List Trace) (i : Nat) (h : i < dfs.length) :
    (filter_data dfs).getD i ([], []) = filter_frame (dfs.getD i []) := by
  rw [filter_data]
  simp only [List.getD_eq_getElem?_getD]
  rw [List.getElem?_eq_getElem (by simpa using h), List.getElem?_eq_getElem h]
  simp

/-- The two directional masks cannot both hold: the fixed address pairs differ. -/
theorem fromArm_not_toArm (r : Row) (h : fromArmPred r = true) : toArmPred r = false := by
  rw [fromArmPred, Bool.and_eq_true] at h
  have hd : r.destination = "192.168.38.11" := eq_of_beq h.1
  rw [toArmPred, hd]
  rw [show (("192.168.38.11" : String) == "192.168.38.1") = false from by decide]
  simp

/-- Splitting at the first dot recovers a dot-free stem from stem ++ ".csv". -/
theorem nameStem_append_csv (stem : String)
    (h : stem.data.all (fun c => c != '.') = true) :
    nameStem (stem ++ ".csv") = stem := by
  rw [nameStem, String.data_append]
  rw [List.takeWhile_append_of_pos (by simpa [List.all_eq_true] using h)]
  rw [show (".csv".data.takeWhile (fun c => c != '.')) = [] from by decide]
  rw [List.append_nil]

/-- Writes distribute over concatenated effect lists. -/
theorem writtenPngs_append (a b : List Effect) :
    writtenPngs (a ++ b) = writtenPngs a ++ writtenPngs b := by
  simp [writtenPngs]

/-- Titles distribute over concatenated effect lists. -/
theorem figTitles_append (a b : List Effect) :
    figTitles (a ++ b) = figTitles a ++ figTitles b := by
  simp [figTitles]

/-- A saving make_plot call writes exactly one PNG: title.png under CWD/figures. -/
theorem writtenPngs_make_plot_effects (sf cf : Trace) (t : String) (sh : Bool)
    (cwd : String) :
    writtenPngs (make_plot_effects sf cf t true sh cwd) = [pngPath cwd t] := by
  cases sh <;> rfl

/-- Every make_plot call titles its figure with the given title, once. -/
theorem figTitles_make_plot_effects (sf cf : Trace) (t : String) (save sh : Bool)
    (cwd : String) :
    figTitles (make_plot_effects sf cf t save sh cwd) = [t] := by
  cases save <;> cases sh <;> rfl

/-- With a figures directory supplied, the plotting loop succeeds and emits one
PNG write and one title per item, in order. -/
theorem run_plots_save_ok (items : List ((Trace × Trace) × String)) (sh : Bool)
    (d cwd : String) :
    ∃ E, run_plots items true sh (some d) cwd = Except.ok E
      ∧ writtenPngs E = items.map (fun it => pngPath cwd it.2)
      ∧ figTitles E = items.map (fun it => it.2) := by
  induction items with
  | nil => exact ⟨[], rfl, rfl, rfl⟩
  | cons it rest ih =>
    obtain ⟨E, hE, hw, ht⟩ := ih
    refine ⟨make_plot_effects it.1.1 it.1.2 it.2 true sh cwd ++ E, ?_, ?_, ?_⟩
    · rw [run_plots,
        show make_plot it.1.1 it.1.2 it.2 true sh (some d) cwd
          = Except.ok (make_plot_effects it.1.1 it.1.2 it.2 true sh cwd) from rfl,
        hE]
    · rw [writtenPngs_append, hw, writtenPngs_make_plot_effects]
      simp
    · rw [figTitles_append, ht, figTitles_make_plot_effects]
      simp

/-- A saving run over a directory with at least one csv entry succeeds; it
writes one PNG per csv entry named after the derived name, and titles one
figure per csv entry with the derived name. -/
theorem main_run_save_ok (data_dir : String) (dirListing : DirListing)
    (figures_dir cwd : String) (sh : Bool)
    (hne : dirListing.filter (fun e => hasCsvMarker e.1) ≠ []) :
    ∃ E, main_run data_dir dirListing figures_dir true sh cwd = Except.ok E
      ∧ writtenPngs E = (dirListing.filter (fun e => hasCsvMarker e.1)).map
          (fun e => pngPath cwd (nameStem e.1))
      ∧ figTitles E = (dirListing.filter (fun e => hasCsvMarker e.1)).map
          (fun e => nameStem e.1) := by
  have hne' : ¬ ((load_data dirListing).1.length = 0) := by
    simp only [load_data, List.length_map]
    simpa [List.length_eq_zero] using hne
  obtain ⟨E, hE, hw, ht⟩ := run_plots_save_ok
    ((filter_data (load_data dirListing).1).zip (load_data dirListing).2) sh figures_dir cwd
  have hmap : List.map Prod.snd
      ((filter_data (load_data dirListing).1).zip (load_data dirListing).2)
      = (load_data dirListing).2 := by
    apply List.map_snd_zip
    simp [filter_data, load_data]
  refine ⟨E, ?_, ?_, ?_⟩
  · rw [main_run]
    rw [if_neg hne']
    exact hE
  · rw [hw, show (fun (it : (Trace × Trace) × String) => pngPath cwd it.2)
        = (fun n => pngPath cwd n) ∘ Prod.snd from rfl,
      ← List.map_map, hmap]
    simp [load_data, List.map_map]
  · rw [ht, show (fun (it : (Trace × Trace) × String) => it.2)
        = id ∘ Prod.snd from rfl,
      ← List.map_map, hmap]
    simp [load_data, List.map_map]

/-! ### Claim theorems -/

/-- C1: the claim says every PNG of a saving run with an explicit figures
directory is written into that supplied directory. The code never consults
figures_dir after its precondition check: the save path is built from the
current working directory joined with "figures" regardless of the supplied
directory, so the result of make_plot is identical for any two supplied
directories, the single write goes to CWD/figures/title.png, the directory
ensured to exist is CWD/figures, and that path differs from the path the
claim requires. The guard and the parameter documentation of make_plot show
figures_dir was meant to be the save location, so this is a code bug. -/
theorem C1_figures_dir_ignored :
    (∀ (d1 d2 : String) (sf cf : Trace) (t : String) (sh : Bool) (cwd : String),
      make_plot sf cf t true sh (some d1) cwd = make_plot sf cf t true sh (some d2) cwd)
    ∧ make_plot [] [] "t" true false (some "/tmp/out") "/home/user"
        = Except.ok (make_plot_effects [] [] "t" true false "/home/user")
    ∧ writtenPngs (make_plot_effects [] [] "t" true false "/home/user")
        = ["/home/user/figures/t.png"]
    ∧ Effect.ensureDir "/home/user/figures" ∈ make_plot_effects [] [] "t" true false "/home/user"
    ∧ ("/home/user/figures/t.png" : String) ≠ "/tmp/out/t.png" := by
  refine ⟨fun d1 d2 sf cf t sh cwd => rfl, rfl, rfl, by decide, by decide⟩

/-- C2: a saving run over a directory with at least one csv file succeeds and
performs exactly one PNG write per csv input, in input order, each named
after the name derived from that input, so the figure count equals the csv
count. -/
theorem C2_one_figure_per_csv (dirListing : DirListing)
    (data_dir figures_dir cwd : String) (sh : Bool)
    (hne : dirListing.filter (fun e => hasCsvMarker e.1) ≠ []) :
    ∃ E, main_run data_dir dirListing figures_dir true sh cwd = Except.ok E
      ∧ writtenPngs E = (dirListing.filter (fun e => hasCsvMarker e.1)).map
          (fun e => pngPath cwd (nameStem e.1))
      ∧ (writtenPngs E).length
          = (dirListing.filter (fun e => hasCsvMarker e.1)).length := by
  obtain ⟨E, h1, h2, h3⟩ := main_run_save_ok data_dir dirListing figures_dir cwd sh hne
  exact ⟨E, h1, h2, by rw [h2, List.length_map]⟩

theorem C2_witness :
    ∃ E, main_run "dd" [("tr.csv", ([] : Trace))] "fd" true false "/cwd" = Except.ok E
      ∧ writtenPngs E = ([("tr.csv", ([] : Trace))].filter (fun e => hasCsvMarker e.1)).map
          (fun e => pngPath "/cwd" (nameStem e.1))
      ∧ (writtenPngs E).length
          = ([("tr.csv", ([] : Trace))].filter (fun e => hasCsvMarker e.1)).length :=
  C2_one_figure_per_csv [("tr.csv", [])] "dd" "fd" "/cwd" false (by decide)

/-- C3: invoking the entry point with hide set and save unset fails with the
configuration ValueError before anything is loaded or plotted, and the run
writes no file. -/
theorem C3_hide_without_save_rejected (dd fdir : Option String) (cwd : String)
    (dirListing : DirListing) :
    entry_point ⟨dd, fdir, true, false⟩ cwd dirListing
      = Except.error "You do not want to show the plots and you do not want to save them, so why make them?"
    ∧ runWrites (entry_point ⟨dd, fdir, true, false⟩ cwd dirListing) = [] :=
  ⟨rfl, rfl⟩

/-- C4: a run over a directory with no filename containing the csv marker
fails with the RuntimeError naming the data directory, and writes nothing. -/
theorem C4_no_csv_files_error (dirListing : DirListing)
    (data_dir figures_dir cwd : String) (save sh : Bool)
    (h : dirListing.filter (fun e => hasCsvMarker e.1) = []) :
    main_run data_dir dirListing figures_dir save sh cwd
      = Except.error ("No .csv files were found in " ++ data_dir)
    ∧ runWrites (main_run data_dir dirListing figures_dir save sh cwd) = [] := by
  have h0 : (load_data dirListing).1.length = 0 := by
    simp [load_data, h]
  constructor
  · rw [main_run, if_pos h0]
  · rw [main_run, if_pos h0]
    rfl

theorem C4_witness :
    (main_run "dd" [("x.txt", ([] : Trace))] "fd" true false "/cwd"
      = Except.error ("No .csv files were found in " ++ "dd"))
    ∧ runWrites (main_run "dd" [("x.txt", ([] : Trace))] "fd" true false "/cwd") = [] :=
  C4_no_csv_files_error [("x.txt", [])] "dd" "fd" "/cwd" true false (by decide)

/-- C5: the command delay series has length min of the two Time array lengths,
the truncation keeps the leading prefixes of both arrays, and elementwise the
delay at i is command[i] minus status[i]. -/
theorem C5_delay_series (status_array command_array : List Int) (i : Nat)
    (h : i < min status_array.length command_array.length) :
    (∀ s c : List Int,
        (command_delay_series s c).length = min s.length c.length
        ∧ truncate s c = (s.take (min s.length c.length), c.take (min s.length c.length)))
    ∧ (command_delay_series status_array command_array).getD i 0
        = command_array.getD i 0 - status_array.getD i 0 :=
  ⟨fun s c => ⟨command_delay_series_length s c, truncate_eq_take s c⟩,
    command_delay_series_getD status_array command_array i h⟩

theorem C5_witness :
    (∀ s c : List Int,
        (command_delay_series s c).length = min s.length c.length
        ∧ truncate s c = (s.take (min s.length c.length), c.take (min s.length c.length)))
    ∧ (command_delay_series [1, 2, 3] [10, 20]).getD 1 0
        = ([10, 20] : List Int).getD 1 0 - ([1, 2, 3] : List Int).getD 1 0 :=
  C5_delay_series [1, 2, 3] [10, 20] 1 (by decide)

/-- C6: the plotted jitter series has length one less than its source array,
it is the raw circular-difference series with index 0 dropped, away from
index 0 the raw difference at i is time[i] minus time[i-1], and the dropped
index-0 difference wraps around to the last element. -/
theorem C6_jitter_series (a : List Int) (i : Nat) (x : Int)
    (h1 : 1 ≤ i) (h2 : i < a.length) (h3 : a.getLast? = some x) :
    (∀ b : List Int, (plotted_jitter b).length = b.length - 1)
    ∧ plotted_jitter a = (raw_jitter a).drop 1
    ∧ (raw_jitter a).getD i 0 = a.getD i 0 - a.getD (i - 1) 0
    ∧ (raw_jitter a).getD 0 0 = a.getD 0 0 - x :=
  ⟨plotted_jitter_length, rfl, raw_jitter_getD a i h1 h2, raw_jitter_getD_zero a x h3⟩

theorem C6_witness :
    (∀ b : List Int, (plotted_jitter b).length = b.length - 1)
    ∧ plotted_jitter [3, 5, 9] = (raw_jitter [3, 5, 9]).drop 1
    ∧ (raw_jitter [3, 5, 9]).getD 1 0
        = ([3, 5, 9] : List Int).getD 1 0 - ([3, 5, 9] : List Int).getD (1 - 1) 0
    ∧ (raw_jitter [3, 5, 9]).getD 0 0 = ([3, 5, 9] : List Int).getD 0 0 - 9 :=
  C6_jitter_series [3, 5, 9] 1 9 (by decide) (by decide) (by decide)

/-- C7: a row enters the from_arm direction of a frame exactly when both its
Destination and Source equal that direction's fixed address pair, likewise
for to_arm with the reversed pair, and a row matching neither pair appears in
neither directional trace. -/
theorem C7_direction_filter (dfs : List Trace) (i : Nat) (r : Row)
    (h : i < dfs.length) :
    (r ∈ ((filter_data dfs).getD i ([], [])).1
        ↔ r ∈ dfs.getD i [] ∧ fromArmPred r = true)
    ∧ (r ∈ ((filter_data dfs).getD i ([], [])).2
        ↔ r ∈ dfs.getD i [] ∧ toArmPred r = true)
    ∧ (fromArmPred r = false → toArmPred r = false →
        r ∉ ((filter_data dfs).getD i ([], [])).1
        ∧ r ∉ ((filter_data dfs).getD i ([], [])).2) := by
  rw [filter_data_getD dfs i h]
  refine ⟨?_, ?_, ?_⟩
  · simp [filter_frame, List.mem_filter]
  · simp [filter_frame, List.mem_filter]
  · intro hf ht
    constructor
    · simp [filter_frame, List.mem_filter, hf]
    · simp [filter_frame, List.mem_filter, ht]

theorem C7_witness :
    ((⟨1, "192.168.38.1", "192.168.38.11"⟩ : Row)
        ∈ ((filter_data [[⟨1, "192.168.38.1", "192.168.38.11"⟩]]).getD 0 ([], [])).1
      ↔ (⟨1, "192.168.38.1", "192.168.38.11"⟩ : Row)
          ∈ [[(⟨1, "192.168.38.1", "192.168.38.11"⟩ : Row)]].getD 0 []
        ∧ fromArmPred ⟨1, "192.168.38.1", "192.168.38.11"⟩ = true)
    ∧ ((⟨1, "192.168.38.1", "192.168.38.11"⟩ : Row)
        ∈ ((filter_data [[⟨1, "192.168.38.1", "192.168.38.11"⟩]]).getD 0 ([], [])).2
      ↔ (⟨1, "192.168.38.1", "192.168.38.11"⟩ : Row)
          ∈ [[(⟨1, "192.168.38.1", "192.168.38.11"⟩ : Row)]].getD 0 []
        ∧ toArmPred ⟨1, "192.168.38.1", "192.168.38.11"⟩ = true)
    ∧ (fromArmPred ⟨1, "192.168.38.1", "192.168.38.11"⟩ = false →
        toArmPred ⟨1, "192.168.38.1", "192.168.38.11"⟩ = false →
        (⟨1, "192.168.38.1", "192.168.38.11"⟩ : Row)
          ∉ ((filter_data [[⟨1, "192.168.38.1", "192.168.38.11"⟩]]).getD 0 ([], [])).1
        ∧ (⟨1, "192.168.38.1", "192.168.38.11"⟩ : Row)
          ∉ ((filter_data [[⟨1, "192.168.38.1", "192.168.38.11"⟩]]).getD 0 ([], [])).2) :=
  C7_direction_filter [[⟨1, "192.168.38.1", "192.168.38.11"⟩]] 0
    ⟨1, "192.168.38.1", "192.168.38.11"⟩ (by decide)

/-- C8 counterexample: the claim says the derived name is the filename stem
with the extension stripped, so for a.b.csv it would be a.b; the code splits
at the first dot and derives a instead. -/
theorem C8_counterexample :
    (load_data [("a.b.csv", ([] : Trace))]).2 = ["a"]
    ∧ (load_data [("a.b.csv", ([] : Trace))]).2 ≠ ["a.b"] := by
  constructor
  · decide
  · decide

/-- C8 amended: the name paired with each loaded Trace is the part of the
filename before the first dot (which equals the stem whenever the stem is
dot-free), and a saving run uses exactly these names as the figure titles and
as the PNG basenames. -/
theorem C8_amended_names (dirListing : DirListing) (stem : String)
    (data_dir figures_dir cwd : String) (sh : Bool)
    (hstem : stem.data.all (fun c => c != '.') = true)
    (hne : dirListing.filter (fun e => hasCsvMarker e.1) ≠ []) :
    (load_data dirListing).2
        = (dirListing.filter (fun e => hasCsvMarker e.1)).map (fun e => nameStem e.1)
    ∧ nameStem (stem ++ ".csv") = stem
    ∧ ∃ E, main_run data_dir dirListing figures_dir true sh cwd = Except.ok E
        ∧ figTitles E = (load_data dirListing).2
        ∧ writtenPngs E = ((load_data dirListing).2).map (fun n => pngPath cwd n) := by
  obtain ⟨E, h1, h2, h3⟩ := main_run_save_ok data_dir dirListing figures_dir cwd sh hne
  refine ⟨rfl, nameStem_append_csv stem hstem, E, h1, h3.trans rfl, ?_⟩
  rw [h2]
  simp [load_data, List.map_map]

theorem C8_witness :
    (load_data [("tr.csv", ([] : Trace))]).2
        = ([("tr.csv", ([] : Trace))].filter (fun e => hasCsvMarker e.1)).map
            (fun e => nameStem e.1)
    ∧ nameStem ("tr" ++ ".csv") = "tr"
    ∧ ∃ E, main_run "dd" [("tr.csv", ([] : Trace))] "fd" true false "/cwd" = Except.ok E
        ∧ figTitles E = (load_data [("tr.csv", ([] : Trace))]).2
        ∧ writtenPngs E = ((load_data [("tr.csv", ([] : Trace))]).2).map
            (fun n => pngPath "/cwd" n) :=
  C8_amended_names [("tr.csv", [])] "tr" "dd" "fd" "/cwd" false (by decide) (by decide)

/-- C9: calling make_plot with save requested and no figures directory fails
with the configuration ValueError, before any drawing or writing effect. -/
theorem C9_save_needs_dir (status_frame command_frame : Trace)
    (title : String) (sh : Bool) (cwd : String) :
    make_plot status_frame command_frame title true sh none cwd
      = Except.error "figures_dir must be specified if save == True"
    ∧ runWrites (make_plot status_frame command_frame title true sh none cwd) = [] :=
  ⟨rfl, rfl⟩

/-- C10: for every frame, the two directional traces share no row, because
the two fixed address pairs differ in both fields, and each directional trace
is an order-preserving subsequence of the frame. -/
theorem C10_disjoint_subsequences (dfs : List Trace) (i : Nat)
    (h : i < dfs.length) :
    (∀ r : Row, r ∈ ((filter_data dfs).getD i ([], [])).1
        → r ∉ ((filter_data dfs).getD i ([], [])).2)
    ∧ ((filter_data dfs).getD i ([], [])).1.Sublist (dfs.getD i [])
    ∧ ((filter_data dfs).getD i ([], [])).2.Sublist (dfs.getD i []) := by
  rw [filter_data_getD dfs i h]
  refine ⟨?_, List.filter_sublist _, List.filter_sublist _⟩
  intro r hr hmem
  have h1 : fromArmPred r = true := (List.mem_filter.mp hr).2
  have h2 : toArmPred r = true := (List.mem_filter.mp hmem).2
  rw [fromArm_not_toArm r h1] at h2
  exact Bool.false_ne_true h2

theorem C10_witness :
    (∀ r : Row, r ∈ ((filter_data [[⟨2, "a", "b"⟩]]).getD 0 ([], [])).1
        → r ∉ ((filter_data [[⟨2, "a", "b"⟩]]).getD 0 ([], [])).2)
    ∧ ((filter_data [[⟨2, "a", "b"⟩]]).getD 0 ([], [])).1.Sublist
        ([[(⟨2, "a", "b"⟩ : Row)]].getD 0 [])
    ∧ ((filter_data [[⟨2, "a", "b"⟩]]).getD 0 ([], [])).2.Sublist
        ([[(⟨2, "a", "b"⟩ : Row)]].getD 0 []) :=
  C10_disjoint_subsequences [[⟨2, "a", "b"⟩]] 0 (by decide)

end JitterAnalyzer
